import Mathlib

/-!
# Verification of the ibis core type system and logical expression nodes

This file gives a shallow embedding of:

* the canonical `DataType` model (spec §3),
* the logical / comparison expression node constructors of
  `ibis/expr/operations/logical.py`,
* the ClickHouse type-string grammar bridge, whose behaviour is pinned by
  `ibis/backends/clickhouse/tests/test_types.py` (the parser implementation
  itself is not part of the given sources, so it is modelled from the spec),

together with theorems settling the frozen claims about them.
-/

namespace Ibis

/-- The canonical `DataType` model.  Modelled from the spec: a tagged variant,
each carrying a `nullable : Bool` flag attached to that exact node; primitive
scalars, parametric scalars (`timestamp`, `decimal`) and containers
(`array`, `map`, `struct` with an ordered field sequence). -/
inductive DataType where
  | boolean (nullable : Bool)
  | int8 (nullable : Bool)
  | int16 (nullable : Bool)
  | int32 (nullable : Bool)
  | int64 (nullable : Bool)
  | uint8 (nullable : Bool)
  | uint16 (nullable : Bool)
  | uint32 (nullable : Bool)
  | uint64 (nullable : Bool)
  | float32 (nullable : Bool)
  | float64 (nullable : Bool)
  | string (nullable : Bool)
  | binary (nullable : Bool)
  | date (nullable : Bool)
  | time (nullable : Bool)
  | inet (nullable : Bool)
  | json (nullable : Bool)
  | null (nullable : Bool)
  | timestamp (scale : Option Nat) (timezone : Option String) (nullable : Bool)
  | decimal (precision : Nat) (scale : Nat) (nullable : Bool)
  | array (elem : DataType) (nullable : Bool)
  | map (key : DataType) (value : DataType) (nullable : Bool)
  | struct (fields : List (String × DataType)) (nullable : Bool)

/-- The `nullable` flag carried by the root node of a type tree. -/
def DataType.nullable : DataType → Bool
  | .boolean n | .int8 n | .int16 n | .int32 n | .int64 n
  | .uint8 n | .uint16 n | .uint32 n | .uint64 n
  | .float32 n | .float64 n | .string n | .binary n | .date n | .time n
  | .inet n | .json n | .null n
  | .timestamp _ _ n | .decimal _ _ n
  | .array _ n | .map _ _ n | .struct _ n => n

/-- Replace the `nullable` flag of the root node, leaving children untouched.
This is how the grammar bridge's nullable wrapper acts on the inner type. -/
def DataType.withNullable : DataType → Bool → DataType
  | .boolean _, n => .boolean n
  | .int8 _, n => .int8 n
  | .int16 _, n => .int16 n
  | .int32 _, n => .int32 n
  | .int64 _, n => .int64 n
  | .uint8 _, n => .uint8 n
  | .uint16 _, n => .uint16 n
  | .uint32 _, n => .uint32 n
  | .uint64 _, n => .uint64 n
  | .float32 _, n => .float32 n
  | .float64 _, n => .float64 n
  | .string _, n => .string n
  | .binary _, n => .binary n
  | .date _, n => .date n
  | .time _, n => .time n
  | .inet _, n => .inet n
  | .json _, n => .json n
  | .null _, n => .null n
  | .timestamp s tz _, n => .timestamp s tz n
  | .decimal p s _, n => .decimal p s n
  | .array e _, n => .array e n
  | .map k v _, n => .map k v n
  | .struct f _, n => .struct f n

/-- `True` exactly on the boolean variant, any nullability: this is the check
performed by a `Value[dt.Boolean]` field annotation. -/
def DataType.isBoolean : DataType → Bool
  | .boolean _ => true
  | _ => false

/-- `True` exactly on the null/void variant, the universal bottom of the
precedence lattice. -/
def DataType.isNull : DataType → Bool
  | .null _ => true
  | _ => false

mutual

/-- Deep structural equality of type trees: variant, parameters, nullability
and children must all match, in order — the spec's equality invariant
("two trees are equal iff every node matches in variant, parameters,
nullability, and (for containers) in children, in order"). -/
def DataType.beq : DataType → DataType → Bool
  | .boolean n1, .boolean n2 => n1 == n2
  | .int8 n1, .int8 n2 => n1 == n2
  | .int16 n1, .int16 n2 => n1 == n2
  | .int32 n1, .int32 n2 => n1 == n2
  | .int64 n1, .int64 n2 => n1 == n2
  | .uint8 n1, .uint8 n2 => n1 == n2
  | .uint16 n1, .uint16 n2 => n1 == n2
  | .uint32 n1, .uint32 n2 => n1 == n2
  | .uint64 n1, .uint64 n2 => n1 == n2
  | .float32 n1, .float32 n2 => n1 == n2
  | .float64 n1, .float64 n2 => n1 == n2
  | .string n1, .string n2 => n1 == n2
  | .binary n1, .binary n2 => n1 == n2
  | .date n1, .date n2 => n1 == n2
  | .time n1, .time n2 => n1 == n2
  | .inet n1, .inet n2 => n1 == n2
  | .json n1, .json n2 => n1 == n2
  | .null n1, .null n2 => n1 == n2
  | .timestamp s1 tz1 n1, .timestamp s2 tz2 n2 => s1 == s2 && tz1 == tz2 && n1 == n2
  | .decimal p1 s1 n1, .decimal p2 s2 n2 => p1 == p2 && s1 == s2 && n1 == n2
  | .array e1 n1, .array e2 n2 => DataType.beq e1 e2 && n1 == n2
  | .map k1 v1 n1, .map k2 v2 n2 => DataType.beq k1 k2 && DataType.beq v1 v2 && n1 == n2
  | .struct f1 n1, .struct f2 n2 => fieldsBeq f1 f2 && n1 == n2
  | _, _ => false

/-- Deep equality of two ordered field sequences. -/
def fieldsBeq : List (String × DataType) → List (String × DataType) → Bool
  | [], [] => true
  | (n1, t1) :: r1, (n2, t2) :: r2 =>
      n1 == n2 && DataType.beq t1 t2 && fieldsBeq r1 r2
  | _, _ => false

end

/-- The two value shapes of the IR: a `scalar` is constant, a `columnar`
value varies per row. -/
inductive Shape where
  | scalar
  | columnar
deriving DecidableEq, Repr

/-- An expression value as seen by a node constructor: the node-construction
rules of `logical.py` only inspect the `dtype` and `shape` of each argument,
so an argument is embedded as that pair. -/
structure Value where
  dtype : DataType
  shape : Shape

/-- The error kinds raised by node construction, mirroring the two distinct
exception classes imported by `logical.py`:

* `ibisTypeError` is `IbisTypeError` (from `ibis.common.exceptions`) — the
  spec's `TypeUnificationError`; its message formats both conflicting types
  ("Arguments <left> and <right> are not comparable").
* `validationError` is `ValidationError` (from `ibis.common.annotations`),
  raised by `Between.__init__` with the same two-type message.
* `signatureValidationError` is the `ValidationError` produced when a field
  annotation such as `Value[dt.Boolean]` rejects an argument; per the spec it
  names the offending argument's actual type. -/
inductive IbisError where
  | ibisTypeError (left : DataType) (right : DataType)
  | validationError (left : DataType) (right : DataType)
  | signatureValidationError (actual : DataType)

/-- The spec's two core error kinds (§7): `TypeUnificationError` versus
`ValidationError`.  `IbisTypeError` realizes the former; both
`ValidationError` variants realize the latter. -/
inductive ErrorKind where
  | typeUnification
  | validation
deriving DecidableEq, Repr

/-- Classify an error under the spec's §7 taxonomy. -/
def IbisError.kind : IbisError → ErrorKind
  | .ibisTypeError _ _ => .typeUnification
  | .validationError _ _ => .validation
  | .signatureValidationError _ => .validation

/-- Broad scalar category used by comparability: numeric-with-numeric,
string-with-string, temporal-with-temporal are comparable; distinct
categories are never comparable. -/
inductive TypeFamily where
  | numeric
  | stringLike
  | temporal
  | booleanLike
  | binaryLike
  | inetLike
  | jsonLike
  | nullLike
  | containerLike
deriving DecidableEq, Repr

/-- The broad category a type belongs to for comparability decisions.
Modelled from the spec: `areComparable` groups types into broad categories
(numeric, string, temporal, …) and treats containers recursively. -/
def DataType.family : DataType → TypeFamily
  | .boolean _ => .booleanLike
  | .int8 _ | .int16 _ | .int32 _ | .int64 _
  | .uint8 _ | .uint16 _ | .uint32 _ | .uint64 _
  | .float32 _ | .float64 _ | .decimal _ _ _ => .numeric
  | .string _ => .stringLike
  | .binary _ => .binaryLike
  | .date _ | .time _ | .timestamp _ _ _ => .temporal
  | .inet _ => .inetLike
  | .json _ => .jsonLike
  | .null _ => .nullLike
  | .array _ _ | .map _ _ _ | .struct _ _ => .containerLike

mutual

/-- Modelled from the spec: `areComparable(a, b)` — the implementation
(`rlz.comparable` in `ibis/expr/rules.py`) is not part of the given sources.
True iff both are null, or both belong to the same broad category
(numeric-with-numeric, string-with-string, temporal-with-temporal, identical
container shapes recursively).  Struct-vs-scalar or array-vs-map are never
comparable. -/
def comparable : DataType → DataType → Bool
  | .array e1 _, .array e2 _ => comparable e1 e2
  | .map k1 v1 _, .map k2 v2 _ => comparable k1 k2 && comparable v1 v2
  | .struct f1 _, .struct f2 _ => fieldsComparable f1 f2
  | a, b => a.family == b.family && a.family != .containerLike

/-- Recursive comparability of two struct field sequences: same names in the
same order, with pairwise comparable field types. -/
def fieldsComparable : List (String × DataType) → List (String × DataType) → Bool
  | [], [] => true
  | (n1, t1) :: r1, (n2, t2) :: r2 =>
      n1 == n2 && comparable t1 t2 && fieldsComparable r1 r2
  | _, _ => false

end

/-- Modelled from the spec: `precedenceRank` — the ordinal of a scalar type
on the precedence chain "unsigned→signed integer widths increasing, then
floating widths, then decimal, then string"; types outside the chain (and the
null bottom, which is handled separately) have no rank. -/
def precedenceRank : DataType → Option Nat
  | .uint8 _ => some 1
  | .uint16 _ => some 2
  | .uint32 _ => some 3
  | .uint64 _ => some 4
  | .int8 _ => some 5
  | .int16 _ => some 6
  | .int32 _ => some 7
  | .int64 _ => some 8
  | .float32 _ => some 9
  | .float64 _ => some 10
  | .decimal _ _ _ => some 11
  | .string _ => some 12
  | _ => none

/-- Modelled from the spec: pairwise promotion step of
`highestPrecedenceType`.  Null is the universal bottom (unifiable with
anything, contributing no constraint); two ranked scalars promote to the one
of higher rank; outside the ranked chain only structurally identical types
unify, and any other pair has no common widened type, which is a
`TypeUnificationError` reporting both conflicting types. -/
def promote (a b : DataType) : Except IbisError DataType :=
  if a.isNull then .ok b
  else if b.isNull then .ok a
  else
    match precedenceRank a, precedenceRank b with
    | some ra, some rb => .ok (if rb ≤ ra then a else b)
    | _, _ => if DataType.beq a b then .ok a else .error (.ibisTypeError a b)

/-- Modelled from the spec: `highestPrecedenceType` /
`rlz.highest_precedence_dtype` — folds pairwise promotion over the argument
types, starting from the null bottom (which contributes no constraint). -/
def highest_precedence_dtype (ts : List DataType) : Except IbisError DataType :=
  ts.foldlM promote (DataType.null false)

namespace dt

/-- Modelled from the spec: the datatypes-module constant `dt.boolean` that
`logical.py` assigns as the fixed result dtype of logical and comparison
nodes; the spec fixes this dtype to `boolean(nullable=false)`. -/
def boolean : DataType := .boolean false

end dt

/-- The shape-broadcast rule `shapeLike(args)` / `rlz.shape_like`:
the result is `columnar` if any argument's shape is `columnar`, else
`scalar`.  Modelled from the spec (the rule library `ibis/expr/rules.py` is
not part of the given sources). -/
def shape_like (args : List Value) : Shape :=
  if args.any (fun v => v.shape == Shape.columnar) then .columnar else .scalar

/-- `rlz.highest_precedence_shape`, used by `InValues.shape`: the maximum of
the argument shapes with `columnar > scalar`, i.e. the same broadcast rule as
`shape_like`. -/
def highest_precedence_shape (args : List Value) : Shape :=
  if args.any (fun v => v.shape == Shape.columnar) then .columnar else .scalar

/-- The tags of the seven `Comparison` subclasses of `logical.py`
(`Equals`, `NotEquals`, `GreaterEqual`, `Greater`, `LessEqual`, `Less`,
`IdenticalTo`); each is a bare `pass` subclass, so construction behaviour is
identical across tags. -/
inductive ComparisonKind where
  | equals
  | notEquals
  | greaterEqual
  | greater
  | lessEqual
  | less
  | identicalTo
deriving DecidableEq, Repr

/-- `Comparison.__init__`: raises `IbisTypeError` formatting both argument
types when `rlz.comparable(left, right)` fails, otherwise constructs the
node; the class fixes `dtype = dt.boolean`, and as a `Binary` value its
shape follows the broadcast rule over its arguments.  The kind tag is
irrelevant to construction (all seven subclasses are `pass`). -/
def Comparison.make (_ : ComparisonKind) (left right : Value) : Except IbisError Value :=
  if comparable left.dtype right.dtype then
    .ok { dtype := dt.boolean, shape := shape_like [left, right] }
  else
    .error (.ibisTypeError left.dtype right.dtype)

/-- `Between.__init__`: checks `rlz.comparable(arg, lower_bound)` and then
`rlz.comparable(arg, upper_bound)` as two independent conditions, raising
`ValidationError` (not `IbisTypeError`) formatting the two offending types
when either fails; the class fixes `dtype = dt.boolean` and
`shape = rlz.shape_like("args")`. -/
def Between.make (arg lower_bound upper_bound : Value) : Except IbisError Value :=
  if ¬ comparable arg.dtype lower_bound.dtype then
    .error (.validationError arg.dtype lower_bound.dtype)
  else if ¬ comparable arg.dtype upper_bound.dtype then
    .error (.validationError arg.dtype upper_bound.dtype)
  else
    .ok { dtype := dt.boolean, shape := shape_like [arg, lower_bound, upper_bound] }

/-- `InValues`: fields `value: Value` and `options: VarTuple[Value]` — a
variadic tuple with no arity constraint and no `__init__` checks, so
construction is total; the class fixes `dtype = dt.boolean` and computes
`shape = rlz.highest_precedence_shape([value, *options])`. -/
def InValues.make (value : Value) (options : List Value) : Value :=
  { dtype := dt.boolean, shape := highest_precedence_shape (value :: options) }

/-- `IfElse`: field annotation `bool_expr: Value[dt.Boolean]` rejects a
non-boolean condition with a `ValidationError`;
`dtype = rlz.highest_precedence_dtype([true_expr, false_null_expr])` (its
failure, a `TypeUnificationError`, aborts construction);
`shape = rlz.shape_like("args")` over all three arguments. -/
def IfElse.make (bool_expr true_expr false_null_expr : Value) : Except IbisError Value :=
  if ¬ bool_expr.dtype.isBoolean then
    .error (.signatureValidationError bool_expr.dtype)
  else
    match highest_precedence_dtype [true_expr.dtype, false_null_expr.dtype] with
    | .error e => .error e
    | .ok d =>
        .ok { dtype := d, shape := shape_like [bool_expr, true_expr, false_null_expr] }

/-- `Not`: field annotation `arg: Value[dt.Boolean]` rejects any non-boolean
argument with a `ValidationError`; the class fixes `dtype = dt.boolean`, and
as a `Unary` value its shape follows the broadcast rule over its single
argument. -/
def Not.make (arg : Value) : Except IbisError Value :=
  if arg.dtype.isBoolean then
    .ok { dtype := dt.boolean, shape := shape_like [arg] }
  else
    .error (.signatureValidationError arg.dtype)

/-!
## The ClickHouse type-string grammar bridge

Modelled from the spec: the parser `ibis.backends.clickhouse.datatypes.parse`
is not part of the given sources; its behaviour is specified by §4.3 of the
spec and pinned, case by case, by
`ibis/backends/clickhouse/tests/test_types.py`.  It is a recursive-descent
parser over a mini-language of identifiers, parenthesized parameter lists,
comma separators and quoted string literals; malformed input fails
atomically (embedded as `none` — the `GrammarParseError` payload carries
only diagnostic text and is not needed by any claim).
-/

/-- The container / parametrized keywords of the grammar, as a closed
dispatch tag; every other identifier is `other` and is resolved through the
scalar alias table. -/
inductive Keyword where
  | nullable
  | array
  | map
  | tuple
  | nested
  | lowCardinality
  | fixedString
  | decimalKw
  | dateTime64
  | dateTime
  | enum8
  | enum16
  | object
  | other
deriving DecidableEq, Repr

/-- Classify an identifier as one of the parametrized keywords; the lexer
attaches this classification to every identifier token. -/
def keywordOf (name : String) : Keyword :=
  if name = "Nullable" then .nullable
  else if name = "Array" then .array
  else if name = "Map" then .map
  else if name = "Tuple" then .tuple
  else if name = "Nested" then .nested
  else if name = "LowCardinality" then .lowCardinality
  else if name = "FixedString" then .fixedString
  else if name = "Decimal" then .decimalKw
  else if name = "DateTime64" then .dateTime64
  else if name = "DateTime" then .dateTime
  else if name = "Enum8" then .enum8
  else if name = "Enum16" then .enum16
  else if name = "Object" then .object
  else .other

/-- Tokens of the type-declaration mini-language.  An identifier token
carries both its keyword classification (`keywordOf` of its text, attached
by the tokenizer) and its text. -/
inductive Token where
  | ident (k : Keyword) (s : String)
  | num (n : Nat)
  | quoted (s : String)
  | lparen
  | rparen
  | comma
  | eqSign
deriving DecidableEq, Repr

/-- The single-quote character delimiting string literals. -/
def quoteChar : Char := Char.ofNat 39

/-- Characters allowed inside an identifier. -/
def isIdentChar (c : Char) : Bool := c.isAlpha || c.isDigit || c == '_'

/-- Split a character stream at the end of an identifier. -/
def takeIdent : List Char → List Char × List Char
  | [] => ([], [])
  | c :: cs =>
    if isIdentChar c then
      let (p, r) := takeIdent cs
      (c :: p, r)
    else ([], c :: cs)

/-- Split a character stream at the end of a digit run. -/
def takeDigits : List Char → List Char × List Char
  | [] => ([], [])
  | c :: cs =>
    if c.isDigit then
      let (p, r) := takeDigits cs
      (c :: p, r)
    else ([], c :: cs)

/-- Read up to (and consume) the closing quote of a string literal. -/
def takeQuoted : List Char → Option (List Char × List Char)
  | [] => none
  | c :: cs =>
    if c == quoteChar then some ([], cs)
    else (takeQuoted cs).map (fun p => (c :: p.1, p.2))

/-- Decimal digits to a natural number. -/
def digitsToNat (acc : Nat) : List Char → Nat
  | [] => acc
  | c :: cs => digitsToNat (acc * 10 + (c.toNat - 48)) cs

/-- Tokenize a type-declaration string.  The fuel is an upper bound on the
number of tokens (each step consumes at least one character); unknown
characters fail the whole tokenization. -/
def tokenize : Nat → List Char → Option (List Token)
  | 0, _ => none
  | _ + 1, [] => some []
  | fuel + 1, c :: cs =>
    if c == ' ' then tokenize fuel cs
    else if c == '(' then (tokenize fuel cs).map (Token.lparen :: ·)
    else if c == ')' then (tokenize fuel cs).map (Token.rparen :: ·)
    else if c == ',' then (tokenize fuel cs).map (Token.comma :: ·)
    else if c == '=' then (tokenize fuel cs).map (Token.eqSign :: ·)
    else if c == quoteChar then
      match takeQuoted cs with
      | none => none
      | some (p, r) => (tokenize fuel r).map (Token.quoted (String.mk p) :: ·)
    else if c.isDigit then
      let (p, r) := takeDigits (c :: cs)
      (tokenize fuel r).map (Token.num (digitsToNat 0 p) :: ·)
    else if isIdentChar c then
      let (p, r) := takeIdent (c :: cs)
      (tokenize fuel r).map (Token.ident (keywordOf (String.mk p)) (String.mk p) :: ·)
    else none

/-- Skip a balanced parameter list up to and including the `)` matching an
already-consumed `(`; used for the payload of enumeration types, whose
encoding metadata is erased. -/
def skipParams : List Token → Nat → Option (List Token)
  | [], _ => none
  | .rparen :: rest, 0 => some rest
  | .rparen :: rest, d + 1 => skipParams rest d
  | .lparen :: rest, d => skipParams rest (d + 1)
  | _ :: rest, d => skipParams rest d

/-- The alias table for scalar keywords that take no parameters: integer and
floating widths, `String`, `Date`, the two network-address families (both
alias to `inet`), `JSON`, and the degenerate `Nothing`/`Null` element which
normalizes to the canonical null leaf.  Every entry is non-nullable: only
the nullable wrapper yields `nullable=true`. -/
def scalarTable : List (String × DataType) :=
  [("Bool", .boolean false),
   ("Int8", .int8 false), ("Int16", .int16 false),
   ("Int32", .int32 false), ("Int64", .int64 false),
   ("UInt8", .uint8 false), ("UInt16", .uint16 false),
   ("UInt32", .uint32 false), ("UInt64", .uint64 false),
   ("Float32", .float32 false), ("Float64", .float64 false),
   ("String", .string false), ("Date", .date false),
   ("IPv4", .inet false), ("IPv6", .inet false),
   ("JSON", .json false),
   ("Nothing", .null false), ("Null", .null false)]

/-- Look a parameterless scalar keyword up in the alias table. -/
def simpleScalar (name : String) : Option DataType :=
  (scalarTable.find? (fun p => p.1 == name)).map Prod.snd

/-- The field-name resolution step of the tuple/struct sub-grammar: a field
is `name type` when two identifiers are adjacent, in which case the declared
name is kept and the type starts at the second identifier; otherwise the
field is unnamed, its type starts immediately, and its name is synthesized
as `f{i}` from the zero-based positional index `idx` among **all** fields. -/
def fieldStart (idx : Nat) : List Token → String × List Token
  | .ident _ n :: .ident km m :: rest1 => (n, Token.ident km m :: rest1)
  | ts => ("f" ++ toString idx, ts)

mutual

/-- Recursive-descent parse of one type from a token stream, returning the
type and the unconsumed rest.  Grammar elements, from the spec:

* `Nullable(T)` — the inner type with `nullable=true` (the only source of
  nullability);
* `Array(T)` — recursive, unbounded nesting;
* `Map(K, V)` — key and value parsed independently, the map node itself
  non-nullable;
* `Tuple(fields)` — struct with optionally named fields (`name? type`),
  unnamed ones synthesized positionally;
* `Nested(fields)` — like `Tuple`, but every field type is wrapped in an
  array (struct-of-arrays denormalization);
* `LowCardinality(T)` — encoding erased, aliases to the inner type;
* `FixedString(n)` — length metadata dropped, aliases to `string`;
* `DateTime64` / `DateTime` with optional scale and timezone parameters,
  omitted parameters recorded as absent;
* `Decimal(p, s)` — straight through;
* `Enum8(...)`/`Enum16(...)` — payload erased, aliases to `string`;
* `Object` tagged with a quoted json marker — aliases to `json`;
* bare scalar keywords via `simpleScalar`.

The fuel bounds the recursion depth; anything unrecognized is `none`.
The dispatch is on the keyword classification the lexer attached to the
leading identifier, together with the following tokens of that keyword's
sub-grammar; a parametrized keyword whose parameter list does not fit its
sub-grammar is rejected (`DateTime`/`DateTime64` instead fall back to their
bare form). -/
def parseType : Nat → List Token → Option (DataType × List Token)
  | 0, _ => none
  | fuel + 1, ts =>
    match ts with
    | .ident .nullable _ :: .lparen :: rest =>
      match parseType fuel rest with
      | some (t, .rparen :: rest1) => some (t.withNullable true, rest1)
      | _ => none
    | .ident .array _ :: .lparen :: rest =>
      match parseType fuel rest with
      | some (t, .rparen :: rest1) => some (.array t false, rest1)
      | _ => none
    | .ident .map _ :: .lparen :: rest =>
      match parseType fuel rest with
      | some (k, .comma :: rest1) =>
        match parseType fuel rest1 with
        | some (v, .rparen :: rest2) => some (.map k v false, rest2)
        | _ => none
      | _ => none
    | .ident .tuple _ :: .lparen :: rest =>
      match parseFields fuel 0 rest with
      | some (fs, rest1) => some (.struct fs false, rest1)
      | none => none
    | .ident .nested _ :: .lparen :: rest =>
      match parseFields fuel 0 rest with
      | some (fs, rest1) =>
          some (.struct (fs.map fun p => (p.1, DataType.array p.2 false)) false, rest1)
      | none => none
    | .ident .lowCardinality _ :: .lparen :: rest =>
      match parseType fuel rest with
      | some (t, .rparen :: rest1) => some (t, rest1)
      | _ => none
    | .ident .fixedString _ :: .lparen :: .num _ :: .rparen :: rest =>
        some (.string false, rest)
    | .ident .decimalKw _ :: .lparen :: .num p :: .comma :: .num s :: .rparen :: rest =>
        some (.decimal p s false, rest)
    | .ident .dateTime64 _ :: .lparen :: .num n :: .comma :: .quoted tz :: .rparen :: rest =>
        some (.timestamp (some n) (some tz) false, rest)
    | .ident .dateTime64 _ :: .lparen :: .num n :: .rparen :: rest =>
        some (.timestamp (some n) none false, rest)
    | .ident .dateTime64 _ :: rest => some (.timestamp none none false, rest)
    | .ident .dateTime _ :: .lparen :: .quoted tz :: .rparen :: rest =>
        some (.timestamp none (some tz) false, rest)
    | .ident .dateTime _ :: rest => some (.timestamp none none false, rest)
    | .ident .enum8 _ :: .lparen :: rest =>
      match skipParams rest 0 with
      | some rest1 => some (.string false, rest1)
      | none => none
    | .ident .enum16 _ :: .lparen :: rest =>
      match skipParams rest 0 with
      | some rest1 => some (.string false, rest1)
      | none => none
    | .ident .object _ :: .lparen :: .quoted q :: .rparen :: rest =>
        if q = "json" then some (.json false, rest) else none
    | .ident .other name :: rest =>
      match simpleScalar name with
      | some t => some (t, rest)
      | none => none
    | _ => none

/-- Parse a nonempty field list `field (, field)* )` for `Tuple`/`Nested`.
A field is `name type` when two identifiers are adjacent, else an unnamed
`type` whose name is synthesized as `f{i}` from the zero-based positional
index `idx` among **all** fields, named and unnamed alike (see
`fieldStart`). -/
def parseFields : Nat → Nat → List Token →
    Option (List (String × DataType) × List Token)
  | 0, _, _ => none
  | fuel + 1, idx, ts =>
    let p := fieldStart idx ts
    match parseType fuel p.2 with
    | some (t, .comma :: rest2) =>
      match parseFields fuel (idx + 1) rest2 with
      | some (fs, rest3) => some ((p.1, t) :: fs, rest3)
      | none => none
    | some (t, .rparen :: rest2) => some ([(p.1, t)], rest2)
    | _ => none

end

/-- `parse`: tokenize the whole declaration string and parse exactly one
type from it, requiring every token to be consumed; any failure is atomic
(no partial type is returned). -/
def parse (s : String) : Option DataType :=
  match tokenize (s.length + 1) s.data with
  | none => none
  | some toks =>
    match parseType (2 * toks.length + 2) toks with
    | some (t, []) => some t
    | _ => none

/-- A token stream whose head position carries a nullable wrapper, looking
through the encoding-erasing `LowCardinality` alias: this is the only way
`parseType` can yield a root with `nullable=true`. -/
def leadsToNullable : List Token → Bool
  | .ident .nullable _ :: .lparen :: _ => true
  | .ident .lowCardinality _ :: .lparen :: rest => leadsToNullable rest
  | _ => false

/-- A token stream opening a named field, i.e. two adjacent identifiers
(`name type`); any other start is an unnamed field. -/
def startsNamedField : List Token → Bool
  | .ident _ _ :: .ident _ _ :: _ => true
  | _ => false

/-- The single-quote character as a one-character string, used to assemble
type declarations containing quoted literals. -/
def sq : String := String.singleton quoteChar

/-- The ClickHouse declaration text for a timestamp with explicit scale and
quoted timezone. -/
def dateTime64Decl (scale : Nat) (tz : String) : String :=
  "DateTime64(" ++ toString scale ++ ", " ++ sq ++ tz ++ sq ++ ")"

/-!
## Theorems
-/

/-- C1: for every pair of argument values, constructing any `Comparison`
variant (`Equals`, `NotEquals`, `Greater`, `GreaterEqual`, `Less`,
`LessEqual`, `IdenticalTo` — the kind tag does not influence construction)
succeeds if and only if `areComparable(left, right)` holds; on success the
node's dtype is boolean with `nullable = false`, and on failure an
`IbisTypeError` — the spec's `TypeUnificationError` — reporting both
conflicting types is raised. -/
theorem comparison_gating (k : ComparisonKind) (left right : Value) :
    (comparable left.dtype right.dtype = true ∧
      Comparison.make k left right =
        .ok { dtype := DataType.boolean false, shape := shape_like [left, right] }) ∨
    (comparable left.dtype right.dtype = false ∧
      Comparison.make k left right = .error (.ibisTypeError left.dtype right.dtype)) := by
  by_cases h : comparable left.dtype right.dtype = true
  · exact Or.inl ⟨h, by simp [Comparison.make, h, dt.boolean]⟩
  · refine Or.inr ⟨by simpa using h, ?_⟩
    simp only [Bool.not_eq_true] at h
    simp [Comparison.make, h]

/-- C2 (counterexample): constructing `Between` with a struct-typed argument
and string-typed bounds fails, but with a `ValidationError` — which is not of
the `TypeUnificationError` kind the claim asserts (`Between.__init__` raises
`ValidationError`, unlike `Comparison.__init__` which raises
`IbisTypeError`). -/
theorem between_error_kind_counterexample :
    Between.make ⟨.struct [("a", .int8 false)] false, .scalar⟩
        ⟨.string false, .scalar⟩ ⟨.string false, .scalar⟩
      = .error (.validationError (.struct [("a", .int8 false)] false) (.string false)) ∧
    IbisError.kind
        (.validationError (.struct [("a", .int8 false)] false) (.string false))
      ≠ ErrorKind.typeUnification :=
  ⟨rfl, by simp [IbisError.kind]⟩

/-- C2 (amended): constructing `Between(arg, lower, upper)` checks
`areComparable(arg, lower)` and `areComparable(arg, upper)` as two
independent conditions; when either fails it raises a `ValidationError`
reporting both conflicting types (not a `TypeUnificationError`); on success
the node's dtype is boolean. -/
theorem between_construction (arg lower_bound upper_bound : Value) :
    (comparable arg.dtype lower_bound.dtype = false ∧
      Between.make arg lower_bound upper_bound =
        .error (.validationError arg.dtype lower_bound.dtype)) ∨
    (comparable arg.dtype lower_bound.dtype = true ∧
      comparable arg.dtype upper_bound.dtype = false ∧
      Between.make arg lower_bound upper_bound =
        .error (.validationError arg.dtype upper_bound.dtype)) ∨
    (comparable arg.dtype lower_bound.dtype = true ∧
      comparable arg.dtype upper_bound.dtype = true ∧
      Between.make arg lower_bound upper_bound =
        .ok { dtype := DataType.boolean false,
              shape := shape_like [arg, lower_bound, upper_bound] }) := by
  by_cases hl : comparable arg.dtype lower_bound.dtype = true
  · by_cases hu : comparable arg.dtype upper_bound.dtype = true
    · exact Or.inr (Or.inr ⟨hl, hu, by simp [Between.make, hl, hu, dt.boolean]⟩)
    · simp only [Bool.not_eq_true] at hu
      exact Or.inr (Or.inl ⟨hl, hu, by simp [Between.make, hl, hu]⟩)
  · simp only [Bool.not_eq_true] at hl
    exact Or.inl ⟨hl, by simp [Between.make, hl]⟩

/-- C3: node construction is embedded as a total function into
`Except IbisError Value`, so a construction either returns a fully-typed
immutable `Value` (dtype and shape are plain fields, resolved exactly once)
or an error with no node produced — there is no partially-validated state.
In particular for `IfElse`: construction succeeds exactly when the condition
is boolean and the two branch dtypes have a common widened type; when
`highestPrecedenceType` fails, that failure surfaces at construction (never
on a later dtype access); and every successfully constructed node carries
exactly the inferred dtype and broadcast shape. -/
theorem ifelse_atomic_construction (c t f : Value) :
    ((∃ v, IfElse.make c t f = .ok v) ↔
      (c.dtype.isBoolean = true ∧
        ∃ d, highest_precedence_dtype [t.dtype, f.dtype] = .ok d)) ∧
    (∀ e, c.dtype.isBoolean = true →
      highest_precedence_dtype [t.dtype, f.dtype] = .error e →
      IfElse.make c t f = .error e) ∧
    (∀ v, IfElse.make c t f = .ok v →
      highest_precedence_dtype [t.dtype, f.dtype] = .ok v.dtype ∧
      v.shape = shape_like [c, t, f]) := by
  by_cases hb : c.dtype.isBoolean = true
  case neg =>
    have hm : IfElse.make c t f = .error (.signatureValidationError c.dtype) := by
      simp [IfElse.make, hb]
    refine ⟨⟨?_, ?_⟩, ?_, ?_⟩
    · rintro ⟨v, hv⟩
      rw [hm] at hv
      cases hv
    · rintro ⟨h, -⟩
      exact absurd h hb
    · intro e h
      exact absurd h hb
    · intro v hv
      rw [hm] at hv
      cases hv
  case pos =>
    rcases hh : highest_precedence_dtype [t.dtype, f.dtype] with e | d
    · have hm : IfElse.make c t f = .error e := by
        simp [IfElse.make, hb, hh]
      refine ⟨⟨?_, ?_⟩, ?_, ?_⟩
      · rintro ⟨v, hv⟩
        rw [hm] at hv
        cases hv
      · rintro ⟨-, d, hd⟩
        cases hd
      · intro e' _ he'
        cases he'
        exact hm
      · intro v hv
        rw [hm] at hv
        cases hv
    · have hm : IfElse.make c t f = .ok { dtype := d, shape := shape_like [c, t, f] } := by
        simp [IfElse.make, hb, hh]
      refine ⟨⟨?_, ?_⟩, ?_, ?_⟩
      · intro
        exact ⟨hb, d, rfl⟩
      · rintro -
        exact ⟨_, hm⟩
      · intro e _ he
        cases he
      · intro v hv
        rw [hm] at hv
        cases hv
        exact ⟨rfl, rfl⟩

/-- C3 (witness): an `IfElse` whose branches are a struct and a string — two
dtypes with no common widened type — fails at construction with the
unification error, producing no node. -/
theorem ifelse_atomic_construction_witness :
    (DataType.boolean false).isBoolean = true ∧
    highest_precedence_dtype [DataType.struct [] false, DataType.string false]
      = .error (.ibisTypeError (.struct [] false) (.string false)) ∧
    IfElse.make ⟨.boolean false, .scalar⟩ ⟨.struct [] false, .scalar⟩
        ⟨.string false, .scalar⟩
      = .error (.ibisTypeError (.struct [] false) (.string false)) :=
  ⟨rfl, rfl,
    (ifelse_atomic_construction ⟨.boolean false, .scalar⟩ ⟨.struct [] false, .scalar⟩
        ⟨.string false, .scalar⟩).2.1 _ rfl rfl⟩

/-- The broadcast rule `shape_like` yields `columnar` exactly when some
argument is columnar (hence `scalar` exactly when all are scalar, shapes
being two-valued). -/
theorem shape_like_columnar (args : List Value) :
    shape_like args = .columnar ↔ ∃ a ∈ args, a.shape = .columnar := by
  unfold shape_like
  split
  · rename_i h
    simp only [List.any_eq_true, beq_iff_eq] at h
    exact iff_of_true rfl h
  · rename_i h
    simp only [List.any_eq_true, beq_iff_eq] at h
    exact iff_of_false (by decide) h

/-- Same characterization for `highest_precedence_shape`. -/
theorem highest_precedence_shape_columnar (args : List Value) :
    highest_precedence_shape args = .columnar ↔ ∃ a ∈ args, a.shape = .columnar := by
  unfold highest_precedence_shape
  split
  · rename_i h
    simp only [List.any_eq_true, beq_iff_eq] at h
    exact iff_of_true rfl h
  · rename_i h
    simp only [List.any_eq_true, beq_iff_eq] at h
    exact iff_of_false (by decide) h

/-- C4: for every successfully constructed `Between`, `InValues` or `IfElse`
node, the node's shape is columnar iff at least one of its arguments (for
`InValues`: the value together with every option) has columnar shape —
equivalently, since shapes are two-valued, scalar iff all arguments are
scalar. -/
theorem shape_broadcast (arg lower_bound upper_bound value c t f : Value)
    (options : List Value) :
    (∀ v, Between.make arg lower_bound upper_bound = .ok v →
      (v.shape = .columnar ↔
        (arg.shape = .columnar ∨ lower_bound.shape = .columnar ∨
          upper_bound.shape = .columnar))) ∧
    ((InValues.make value options).shape = .columnar ↔
      (value.shape = .columnar ∨ ∃ o ∈ options, o.shape = .columnar)) ∧
    (∀ v, IfElse.make c t f = .ok v →
      (v.shape = .columnar ↔
        (c.shape = .columnar ∨ t.shape = .columnar ∨ f.shape = .columnar))) := by
  refine ⟨?_, ?_, ?_⟩
  · intro v hv
    have hs : v.shape = shape_like [arg, lower_bound, upper_bound] := by
      unfold Between.make at hv
      split at hv
      · cases hv
      · split at hv
        · cases hv
        · cases hv
          rfl
    rw [hs, shape_like_columnar]
    simp
  · have hs : (InValues.make value options).shape
        = highest_precedence_shape (value :: options) := rfl
    rw [hs, highest_precedence_shape_columnar]
    simp
  · intro v hv
    have hs : v.shape = shape_like [c, t, f] := by
      unfold IfElse.make at hv
      split at hv
      · cases hv
      · split at hv
        · cases hv
        · cases hv
          rfl
    rw [hs, shape_like_columnar]
    simp

/-- C4 (witness): a `Between` combining one columnar argument with two scalar
arguments resolves to columnar shape. -/
theorem shape_broadcast_witness :
    Between.make ⟨.int8 false, .columnar⟩ ⟨.int8 false, .scalar⟩ ⟨.int8 false, .scalar⟩
      = .ok { dtype := DataType.boolean false, shape := Shape.columnar } ∧
    (({ dtype := DataType.boolean false, shape := Shape.columnar } : Value).shape = .columnar ↔
      ((⟨.int8 false, .columnar⟩ : Value).shape = .columnar ∨
        (⟨.int8 false, .scalar⟩ : Value).shape = .columnar ∨
        (⟨.int8 false, .scalar⟩ : Value).shape = .columnar)) :=
  ⟨rfl,
    (shape_broadcast ⟨.int8 false, .columnar⟩ ⟨.int8 false, .scalar⟩ ⟨.int8 false, .scalar⟩
        ⟨.int8 false, .scalar⟩ ⟨.boolean false, .scalar⟩ ⟨.int8 false, .scalar⟩
        ⟨.int8 false, .scalar⟩ []).1 _ rfl⟩

/-- C9 (counterexample): `InValues` construction with zero options is **not**
rejected — `options: VarTuple[Value]` is a plain variadic tuple with no arity
constraint and the class has no `__init__` check, so an empty options
sequence yields a fully-formed node. -/
theorem invalues_empty_options_counterexample :
    InValues.make ⟨.int8 false, .scalar⟩ [] =
      { dtype := DataType.boolean false, shape := Shape.scalar } := rfl

/-- C9 (amended): `InValues` construction is total — it accepts any options
sequence, empty included — and the node's dtype is the fixed boolean
constant regardless of the dtypes of value and options, with shape broadcast
over the value and all options. -/
theorem invalues_total_construction (value : Value) (options : List Value) :
    (InValues.make value options).dtype = DataType.boolean false ∧
    (InValues.make value options).shape = highest_precedence_shape (value :: options) :=
  ⟨rfl, rfl⟩

/-- C10: the unary `Not` accepts only a boolean-typed argument — its
`Value[dt.Boolean]` annotation rejects any non-boolean argument with a
`ValidationError` naming the actual type — and its dtype is the fixed
boolean constant. -/
theorem not_requires_boolean (arg : Value) :
    ((∃ v, Not.make arg = .ok v) ↔ arg.dtype.isBoolean = true) ∧
    (∀ v, Not.make arg = .ok v →
      v = { dtype := DataType.boolean false, shape := shape_like [arg] }) ∧
    (arg.dtype.isBoolean = false →
      Not.make arg = .error (.signatureValidationError arg.dtype)) := by
  by_cases hb : arg.dtype.isBoolean = true
  · have hm : Not.make arg = .ok { dtype := DataType.boolean false, shape := shape_like [arg] } := by
      simp [Not.make, hb, dt.boolean]
    refine ⟨iff_of_true ⟨_, hm⟩ hb, ?_, ?_⟩
    · intro v hv
      rw [hm] at hv
      cases hv
      rfl
    · intro hf
      rw [hb] at hf
      cases hf
  · have hm : Not.make arg = .error (.signatureValidationError arg.dtype) := by
      simp [Not.make, hb]
    refine ⟨?_, ?_, fun _ => hm⟩
    · constructor
      · rintro ⟨v, hv⟩
        rw [hm] at hv
        cases hv
      · intro h
        exact absurd h hb
    · intro v hv
      rw [hm] at hv
      cases hv

/-- C10 (witness): `Not` of an int8-typed argument is rejected with the
validation error naming the actual type. -/
theorem not_requires_boolean_witness :
    (DataType.int8 false).isBoolean = false ∧
    Not.make ⟨.int8 false, .scalar⟩ = .error (.signatureValidationError (.int8 false)) :=
  ⟨rfl, (not_requires_boolean ⟨.int8 false, .scalar⟩).2.2 rfl⟩

/-- On a token stream that does not open with a named field, `fieldStart`
synthesizes the positional name and leaves the stream unchanged. -/
theorem fieldStart_unnamed (idx : Nat) (ts : List Token)
    (hu : startsNamedField ts = false) :
    fieldStart idx ts = ("f" ++ toString idx, ts) := by
  unfold fieldStart
  split
  · rename_i n m rest1
    exact absurd hu (by simp [startsNamedField])
  · rfl

/-- C5: tuple/struct field-name synthesis.  A named field (two adjacent
identifiers) keeps its declared name; an unnamed field receives the
synthesized name `f{i}` where `i` is the zero-based positional index among
**all** fields, named and unnamed alike, preserving declaration order.  In
particular `Tuple(a String, Array(Nullable(Float64)))` parses to a struct
with fields `a` then `f1` (not `f0`), the second being a non-nullable array
of float64; the fully-unnamed and fully-named tuple declarations from the
same test table pin the two pure cases. -/
theorem tuple_field_name_synthesis :
    (∀ fuel idx k1 n km m ts1 fs rest,
      parseFields (fuel + 1) idx (.ident k1 n :: .ident km m :: ts1) = some (fs, rest) →
      fs.head?.map Prod.fst = some n) ∧
    (∀ fuel idx ts fs rest, startsNamedField ts = false →
      parseFields (fuel + 1) idx ts = some (fs, rest) →
      fs.head?.map Prod.fst = some ("f" ++ toString idx)) ∧
    parse "Tuple(a String, Array(Nullable(Float64)))" =
      some (.struct [("a", .string false), ("f1", .array (.float64 true) false)] false) ∧
    parse "Tuple(String, Array(Nullable(Float64)))" =
      some (.struct [("f0", .string false), ("f1", .array (.float64 true) false)] false) ∧
    parse "Tuple(a String, b Array(Nullable(Float64)))" =
      some (.struct [("a", .string false), ("b", .array (.float64 true) false)] false) := by
  refine ⟨?_, ?_, rfl, rfl, rfl⟩
  · intro fuel idx k1 n km m ts1 fs rest h
    unfold parseFields at h
    simp only [fieldStart] at h
    split at h
    · split at h
      · cases h
        rfl
      · cases h
    · cases h
      rfl
    · cases h
  · intro fuel idx ts fs rest hu h
    unfold parseFields at h
    rw [fieldStart_unnamed idx ts hu] at h
    simp only at h
    split at h
    · split at h
      · cases h
        rfl
      · cases h
    · cases h
      rfl
    · cases h

/-- C5 (witness): a lone unnamed field parsed at positional index 1 receives
the synthesized name `f1`. -/
theorem tuple_field_name_synthesis_witness :
    startsNamedField [Token.ident .other "Float64", .rparen] = false ∧
    parseFields 4 1 [Token.ident .other "Float64", .rparen]
      = some ([("f1", .float64 false)], []) ∧
    [("f1", DataType.float64 false)].head?.map Prod.fst = some ("f" ++ toString 1) :=
  ⟨rfl, rfl,
    tuple_field_name_synthesis.2.1 3 1 [Token.ident .other "Float64", .rparen]
      [("f1", .float64 false)] [] rfl rfl⟩

/-- C6: the `Nested(...)` declaration parses its field list like a tuple and
then wraps **every** field type in a non-nullable array (the struct-of-arrays
denormalization), the struct itself also non-nullable; in particular
`Nested(a String, b Array(Nullable(Float64)))` parses to a struct whose
fields are an array of string and an array of array of float64, with the
struct and every introduced array non-nullable. -/
theorem nested_struct_of_arrays (fuel : Nat) (ts : List Token)
    (fs : List (String × DataType)) (rest : List Token)
    (h : parseFields fuel 0 ts = some (fs, rest)) :
    parseType (fuel + 1) (.ident .nested "Nested" :: .lparen :: ts)
      = some (.struct (fs.map fun p => (p.1, DataType.array p.2 false)) false, rest) ∧
    parse "Nested(a String, b Array(Nullable(Float64)))" =
      some (.struct [("a", .array (.string false) false),
        ("b", .array (.array (.float64 true) false) false)] false) := by
  constructor
  · have e1 : parseType (fuel + 1) (.ident .nested "Nested" :: .lparen :: ts)
        = (match parseFields fuel 0 ts with
          | some (fs1, rest1) =>
              some (.struct (fs1.map fun p => (p.1, DataType.array p.2 false)) false, rest1)
          | none => none) := rfl
    rw [e1, h]
  · rfl

/-- C6 (witness): the general struct-of-arrays transform applied to the
concrete token stream of the `Nested` exemplar. -/
theorem nested_struct_of_arrays_witness :
    parseFields 10 0 [Token.ident .other "a", .ident .other "String", .comma, .ident .other "b",
        .ident .array "Array", .lparen, .ident .nullable "Nullable", .lparen,
        .ident .other "Float64", .rparen, .rparen, .rparen]
      = some ([("a", .string false), ("b", .array (.float64 true) false)], []) ∧
    parseType 11 (.ident .nested "Nested" :: .lparen :: [Token.ident .other "a",
        .ident .other "String", .comma, .ident .other "b", .ident .array "Array",
        .lparen, .ident .nullable "Nullable", .lparen, .ident .other "Float64",
        .rparen, .rparen, .rparen])
      = some (.struct [("a", .array (.string false) false),
          ("b", .array (.array (.float64 true) false) false)] false, []) :=
  ⟨rfl,
    (nested_struct_of_arrays 10
      [Token.ident .other "a", .ident .other "String", .comma, .ident .other "b",
        .ident .array "Array", .lparen, .ident .nullable "Nullable", .lparen,
        .ident .other "Float64", .rparen, .rparen, .rparen]
      [("a", .string false), ("b", .array (.float64 true) false)] [] rfl).1⟩

/-- C7: temporal precision and timezone are preserved exactly.  `DateTime64`
with no parameters, `DateTime64(0)` and `DateTime64(1)` parse to three
pairwise-distinct timestamps differing only in the scale field (absence of a
scale is distinct from scale 0), and for every scale 0–9 combined with each
of the four timezone identifiers, the parsed timestamp's scale and timezone
equal the literal inputs exactly. -/
theorem datetime64_parameters :
    parse "DateTime64" = some (.timestamp none none false) ∧
    parse "DateTime64(0)" = some (.timestamp (some 0) none false) ∧
    parse "DateTime64(1)" = some (.timestamp (some 1) none false) ∧
    (DataType.timestamp none none false) ≠ (.timestamp (some 0) none false) ∧
    (DataType.timestamp none none false) ≠ (.timestamp (some 1) none false) ∧
    (DataType.timestamp (some 0) none false) ≠ (.timestamp (some 1) none false) ∧
    (∀ scale ∈ [0, 1, 2, 3, 4, 5, 6, 7, 8, 9],
      ∀ tz ∈ ["UTC", "America/New_York", "America/Chicago", "America/Los_Angeles"],
        parse (dateTime64Decl scale tz)
          = some (.timestamp (some scale) (some tz) false)) := by
  refine ⟨rfl, rfl, rfl, by simp, by simp, by simp, ?_⟩
  intro scale hs tz htz
  fin_cases hs <;> fin_cases htz <;> rfl

/-- C7 (witness): the scale/timezone grid applied at scale 1 with the UTC
timezone identifier. -/
theorem datetime64_parameters_witness :
    (1 ∈ [0, 1, 2, 3, 4, 5, 6, 7, 8, 9]) ∧
    ("UTC" ∈ ["UTC", "America/New_York", "America/Chicago", "America/Los_Angeles"]) ∧
    parse (dateTime64Decl 1 "UTC") = some (.timestamp (some 1) (some "UTC") false) :=
  ⟨by simp, by simp,
    datetime64_parameters.2.2.2.2.2.2 1 (by simp) "UTC" (by simp)⟩

/-- Every entry of the scalar alias table is non-nullable. -/
theorem simpleScalar_nullable (n : String) (t : DataType)
    (h : simpleScalar n = some t) : t.nullable = false := by
  unfold simpleScalar at h
  cases hf : scalarTable.find? (fun p => p.1 == n) with
  | none =>
    rw [hf] at h
    cases h
  | some a =>
    rw [hf] at h
    cases h
    have hm : a ∈ scalarTable := List.mem_of_find?_eq_some hf
    have hall : scalarTable.all (fun p => p.2.nullable == false) = true := rfl
    rw [List.all_eq_true] at hall
    simpa using hall a hm

set_option maxHeartbeats 2000000 in
/-- A successfully parsed type has a nullable root only when its token
stream opens with a nullable wrapper (possibly through the transparent
`LowCardinality` alias): every branch of the parser other than the wrapper
constructs its root with `nullable = false`. -/
theorem parseType_nullable_requires_wrapper (fuel : Nat) :
    ∀ ts t rest, parseType fuel ts = some (t, rest) → t.nullable = true →
      leadsToNullable ts = true := by
  induction fuel with
  | zero =>
    intro ts t rest h
    exact absurd h (by simp [parseType])
  | succ fuel ih =>
    intro ts t rest h hn
    unfold parseType at h
    split at h
    all_goals try (split at h)
    all_goals try (split at h)
    all_goals try cases h
    all_goals try (exact Bool.noConfusion hn)
    · rfl
    · rename_i s r x heq
      exact ih r t (Token.rparen :: rest) heq hn
    · rename_i heq
      have hf := simpleScalar_nullable _ _ heq
      rw [hf] at hn
      exact Bool.noConfusion hn

/-- C8: nullability from parsing is strictly per-node and the nullable
wrapper is its only source: a parsed type whose root is nullable was reached
through a wrapper at that exact position (only the transparent
`LowCardinality` encoding alias is looked through), so every type reached
without a wrapper parses to `nullable = false`; and a wrapper on a map's key
or value makes only that key or value nullable while the map node itself
stays non-nullable, as the `Map(Nullable(String), Nullable(UInt64))`
exemplar shows, with the bare-type exemplars from the same test table. -/
theorem nullability_per_node (fuel : Nat) (ts : List Token) (t : DataType)
    (rest : List Token) :
    (parseType fuel ts = some (t, rest) → t.nullable = true →
      leadsToNullable ts = true) ∧
    parse "Map(Nullable(String), Nullable(UInt64))" =
      some (.map (.string true) (.uint64 true) false) ∧
    parse "Array(Int8)" = some (.array (.int8 false) false) ∧
    parse "Int8" = some (.int8 false) :=
  ⟨fun h hn => parseType_nullable_requires_wrapper fuel ts t rest h hn, rfl, rfl, rfl⟩

/-- C8 (witness): a nullable-wrapped scalar parses with a nullable root, and
its token stream indeed opens with the wrapper. -/
theorem nullability_per_node_witness :
    parseType 5 [Token.ident .nullable "Nullable", .lparen,
        .ident .other "Int8", .rparen] = some (.int8 true, []) ∧
    (DataType.int8 true).nullable = true ∧
    leadsToNullable [Token.ident .nullable "Nullable", .lparen,
        .ident .other "Int8", .rparen] = true :=
  ⟨rfl, rfl,
    (nullability_per_node 5 [Token.ident .nullable "Nullable", .lparen,
        .ident .other "Int8", .rparen] (.int8 true) []).1 rfl rfl⟩

end Ibis
